import Mathlib

/-!
Shallow embedding of `better_replicate_zfs_snapshots.py`, the ZFS
snapshot-replication script.

Conventions of the embedding:
* A snapshot is identified by its full name string `filesystem ++ "@" ++ label`,
  exactly the strings flowing through the Python code.
* The snapshot-store queries (`snapshots_in_creation_order`,
  `dependent_zfs_filesystems`) are I/O in the source; their results enter
  the embedding as explicit list parameters, or as an oracle
  (for the self-recursive call of `replicate_snapshots`, indexed by
  invocation number; for the per-child calls of the tree walk, indexed by
  host and filesystem name).
* Commands passed to `maybe_run_command` are the observable actions of the
  program; they are modelled by the inductive `Action`, and
  `Action.command` renders each action to the exact shell-command string
  the Python code builds.  In dry-run mode the code prints the command and
  in live mode it executes it; either way the command is emitted, so the
  embedding records the emitted list in both modes.
* `print` statements that only log, and the `verbose` flag (which only
  gates logging), are not modelled.  The `quiet` flag IS modelled where it
  changes which commands are emitted: in the source, the
  `maybe_run_command` for `zfs destroy` sits inside the `if not quiet:`
  block (lines 204-207).
* Exceptions become an `Except`-style outcome; commands emitted before a
  `raise` are still recorded, because the source executes them before
  raising.
* Python string operations are re-implemented structurally over
  `String.data` (lists of characters) so that every definition evaluates
  by kernel reduction on concrete inputs.
-/

namespace ZfsReplicate

/-- Errors raised by `replicate_snapshots`:
`noRemoteSnapshots` models `ZfsReplicationNoRemoteSnapshots`
(called `NoSourceSnapshots` in the design document), and
`noSnapshotsInCommon` models `ZfsReplicationNoSnapshotsInCommon`
(`NoSnapshotsInCommon`). -/
inductive ZfsError where
  | noRemoteSnapshots
  | noSnapshotsInCommon
deriving DecidableEq

/-- The commands handed to `maybe_run_command`.  Each constructor carries
exactly the arguments the Python code interpolates into the command string;
`Action.command` reproduces that string.
`send` is the bootstrap full transfer (source line 220): note that the
code computes `maybe_ssh(src_host)` for BOTH the send side and the receive
side there, so the constructor carries the receive-side host separately.
`sendIncremental` is the incremental transfer (source line 248), whose
receive side uses `maybe_ssh(dest_host)`. -/
inductive Action where
  | destroy (dest_host snapshot : String)
  | send (src_host snapshot recv_host dest_filesystem : String)
  | sendIncremental (src_host from_snapshot to_snapshot recv_host dest_filesystem : String)
deriving DecidableEq

/-- `maybe_ssh` from the source: empty string for localhost, otherwise an
`ssh -C host` prelude. -/
def maybe_ssh (host : String) : String :=
  if host == "localhost" then "" else "ssh -C " ++ host

/-- Render an `Action` to the exact command string the Python code builds
(the argument of `maybe_run_command`). -/
def Action.command : Action → String
  | .destroy dh s => maybe_ssh dh ++ " sudo zfs destroy " ++ s
  | .send sh s rh dfs =>
      maybe_ssh sh ++ " sudo zfs send " ++ s ++ " " ++ "| "
        ++ maybe_ssh rh ++ " sudo zfs receive -F " ++ dfs
  | .sendIncremental sh f t rh dfs =>
      maybe_ssh sh ++ " sudo zfs send -I " ++ f ++ " " ++ t ++ " " ++ "| "
        ++ maybe_ssh rh ++ " sudo zfs receive -F " ++ dfs

/-- Characters after the first `@` of a character list. -/
def after_at : List Char → List Char
  | [] => []
  | c :: cs => if c = '@' then cs else after_at cs

/-- `strip_filesystem_name` from the source: the Python asserts the
snapshot name contains exactly one `@` and returns `split("@")[1]`; on
such names this is the part after the (unique) `@`, which is what this
structural re-implementation computes. -/
def strip_filesystem_name (snapshot_name : String) : String :=
  ⟨after_at snapshot_name.data⟩

/-- Python `str.startswith`, re-implemented structurally on character
lists (second argument is the candidate leading segment). -/
def starts_with_chars : List Char → List Char → Bool
  | _, [] => true
  | [], _ :: _ => false
  | c :: cs, d :: ds => c = d && starts_with_chars cs ds

/-- Python `s.startswith(t)`. -/
def startswith (s t : String) : Bool :=
  starts_with_chars s.data t.data

/-- Label set of a snapshot list (the source builds
`set(map(strip_filesystem_name, ...))`; membership in the Python set is
membership in this list). -/
def label_set (snapshots : List String) : List String :=
  snapshots.map strip_filesystem_name

/-- The source computation of `last_common_snapshot` (line 179): first
snapshot, scanning `src_snapshots` from most recent to least recent (the
lists are in creation order, oldest first), whose label is in the
destination label set. -/
def last_common_snapshot (src_snapshots dest_snapshots : List String) : Option String :=
  src_snapshots.reverse.find?
    (fun s => (label_set dest_snapshots).contains (strip_filesystem_name s))

/-- The source computation of `extra_snapshots_in_dest` (line 181):
destination snapshots whose label is absent from the source label set. -/
def extra_snapshots_in_dest (src_snapshots dest_snapshots : List String) : List String :=
  dest_snapshots.filter
    (fun s => !((label_set src_snapshots).contains (strip_filesystem_name s)))

/-- The `zfs destroy` commands emitted by the loop at source lines
198-213: one per extra destination snapshot whose label starts with
`zfs-auto-snap`, but only when `delete_snapshots_not_in_src` is set AND
`quiet` is off — in the source, the `maybe_run_command` call for the
destroy is nested inside the `if not quiet:` block. -/
def delete_commands (dest_host : String) (extra : List String)
    (delete_snapshots_not_in_src quiet : Bool) : List Action :=
  extra.filterMap (fun snapshot =>
    if startswith (strip_filesystem_name snapshot) "zfs-auto-snap" then
      if delete_snapshots_not_in_src then
        if !quiet then some (Action.destroy dest_host snapshot) else none
      else none
    else none)

/-- One invocation of `replicate_snapshots` (source lines 156-251) with
the two snapshot enumerations passed in explicitly.  Returns the list of
commands emitted (in program order) paired with the outcome:
`Except.error e` for a raised exception, `Except.ok true` when the live
bootstrap branch re-invokes `replicate_snapshots` (source line 232), and
`Except.ok false` when the call returns without recursing (dry-run
bootstrap, up-to-date, or incremental).  Commands emitted before a raise
are kept, because the source executes them before raising. -/
def reconcile_step (src_host dest_host dest_filesystem : String)
    (src_snapshots dest_snapshots : List String)
    (dry_run delete_snapshots_not_in_src quiet : Bool) :
    List Action × Except ZfsError Bool :=
  if src_snapshots.isEmpty then
    ([], Except.error ZfsError.noRemoteSnapshots)
  else
    let last_common := last_common_snapshot src_snapshots dest_snapshots
    let extra := extra_snapshots_in_dest src_snapshots dest_snapshots
    let last_src_snapshot := src_snapshots.getLastD ""
    let deletes := delete_commands dest_host extra delete_snapshots_not_in_src quiet
    if dest_snapshots.isEmpty then
      let first_src_snapshot := src_snapshots.headD ""
      let bootstrap := Action.send src_host first_src_snapshot src_host dest_filesystem
      if dry_run then
        (deletes ++ [bootstrap], Except.ok false)
      else
        (deletes ++ [bootstrap], Except.ok true)
    else
      match last_common with
      | none => (deletes, Except.error ZfsError.noSnapshotsInCommon)
      | some lc =>
        if last_src_snapshot == lc then
          (deletes, Except.ok false)
        else
          (deletes ++ [Action.sendIncremental src_host lc last_src_snapshot
                        dest_host dest_filesystem],
           Except.ok false)

/-- The full `replicate_snapshots`, including the self-recursive call of
the live bootstrap branch (source line 232).  The snapshot enumerations
performed at the start of each (re-)invocation are supplied by the
oracles `srcEnum` and `destEnum`, indexed by invocation number `k` (the
store may change between invocations, because the bootstrap transfer
creates a destination snapshot).  The self-recursion is bounded by an
explicit `fuel` argument; `none` means the chain of self-invocations
exceeded the fuel, i.e. the source program would still be recursing. -/
def replicate_snapshots (srcEnum destEnum : Nat → List String)
    (src_host dest_host dest_filesystem : String)
    (dry_run delete_snapshots_not_in_src quiet : Bool) :
    Nat → Nat → Option (List Action × Except ZfsError Unit)
  | _, 0 => none
  | k, fuel + 1 =>
    let r := reconcile_step src_host dest_host dest_filesystem
      (srcEnum k) (destEnum k) dry_run delete_snapshots_not_in_src quiet
    match r.2 with
    | Except.error e => some (r.1, Except.error e)
    | Except.ok false => some (r.1, Except.ok ())
    | Except.ok true =>
      match replicate_snapshots srcEnum destEnum src_host dest_host dest_filesystem
          dry_run delete_snapshots_not_in_src quiet (k + 1) fuel with
      | none => none
      | some (acts, out) => some (r.1 ++ acts, out)

/-- `dependent_zfs_filesystems` (source lines 144-154): given the raw
output lines of the `zfs list` query, keep the lines below
`filesystem ++ "/"` and strip that leading segment, dropping empty
remainders. -/
def dependent_zfs_filesystems (filesystem : String) (lines : List String) : List String :=
  lines.filterMap (fun line =>
    if startswith line (filesystem ++ "/") then
      let sub : String := ⟨line.data.drop (filesystem ++ "/").data.length⟩
      if sub == "" then none else some sub
    else none)

/-- What the tree walk records for one source-side child filesystem. -/
inductive ChildOutcome where
  | replicated (actions : List Action)
  | reportedError (actions : List Action) (e : ZfsError)
  | missingOnDest
deriving DecidableEq

/-- The replication call made for one child filesystem by
`replicate_snapshots_recursively` (source lines 275-278): a
`replicate_snapshots` run on the `root/child` pair.  `snaps` is the
snapshot-enumeration oracle (host, filesystem ↦ snapshot list); the
embedding takes the static view the walk starts from, so every
re-enumeration inside the run sees the same lists. -/
def child_replicate (snaps : String → String → List String)
    (src_host src_filesystem dest_host dest_filesystem : String)
    (dry_run delete_snapshots_not_in_src quiet : Bool) (fuel : Nat)
    (c : String) : Option (List Action × Except ZfsError Unit) :=
  replicate_snapshots
    (fun _ => snaps src_host (src_filesystem ++ "/" ++ c))
    (fun _ => snaps dest_host (dest_filesystem ++ "/" ++ c))
    src_host dest_host (dest_filesystem ++ "/" ++ c)
    dry_run delete_snapshots_not_in_src quiet 0 fuel

/-- The loop over source-side children (source lines 266-293): a child
present on both sides is replicated, and the two replication exceptions
(`ZfsReplicationNoRemoteSnapshots`, `ZfsReplicationNoSnapshotsInCommon`)
are caught and recorded for that child only; a child missing on the
destination side is only reported.  The whole walk is `none` when some
replicated child ran out of fuel (the source would not get past that
child). -/
def child_walk (snaps : String → String → List String)
    (src_host src_filesystem dest_host dest_filesystem : String)
    (dry_run delete_snapshots_not_in_src quiet : Bool) (fuel : Nat)
    (dest_subfilesystems : List String) :
    List String → Option (List (String × ChildOutcome))
  | [] => some []
  | c :: rest =>
    let tail := child_walk snaps src_host src_filesystem dest_host dest_filesystem
      dry_run delete_snapshots_not_in_src quiet fuel dest_subfilesystems rest
    if dest_subfilesystems.contains c then
      match child_replicate snaps src_host src_filesystem dest_host dest_filesystem
          dry_run delete_snapshots_not_in_src quiet fuel c with
      | none => none
      | some (acts, Except.error e) =>
        tail.map (fun t => (c, ChildOutcome.reportedError acts e) :: t)
      | some (acts, Except.ok _) =>
        tail.map (fun t => (c, ChildOutcome.replicated acts) :: t)
    else
      tail.map (fun t => (c, ChildOutcome.missingOnDest) :: t)

/-- `replicate_snapshots_recursively` (source lines 253-293): replicate
the root pair (exceptions there are NOT caught inside this function and
propagate to the caller, modelled by `some (Except.error e)`), then walk
the source-side children.  `src_subfilesystems` and
`dest_subfilesystems` are the results of the two
`dependent_zfs_filesystems` queries. -/
def replicate_snapshots_recursively (snaps : String → String → List String)
    (src_host src_filesystem dest_host dest_filesystem : String)
    (dry_run delete_snapshots_not_in_src quiet : Bool)
    (src_subfilesystems dest_subfilesystems : List String) (fuel : Nat) :
    Option (Except ZfsError (List Action × List (String × ChildOutcome))) :=
  match replicate_snapshots
      (fun _ => snaps src_host src_filesystem)
      (fun _ => snaps dest_host dest_filesystem)
      src_host dest_host dest_filesystem
      dry_run delete_snapshots_not_in_src quiet 0 fuel with
  | none => none
  | some (_, Except.error e) => some (Except.error e)
  | some (root_actions, Except.ok _) =>
    (child_walk snaps src_host src_filesystem dest_host dest_filesystem
        dry_run delete_snapshots_not_in_src quiet fuel
        dest_subfilesystems src_subfilesystems).map
      (fun t => Except.ok (root_actions, t))

/-- Decidable equality for `Except` outcomes, so that concrete runs can be
checked by evaluation. -/
def exceptDecEq {e a : Type} [DecidableEq e] [DecidableEq a] :
    (x y : Except e a) → Decidable (x = y)
  | Except.error u, Except.error v =>
    if h : u = v then Decidable.isTrue (by rw [h])
    else Decidable.isFalse (fun hc => h (Except.error.inj hc))
  | Except.error _, Except.ok _ => Decidable.isFalse (fun hc => Except.noConfusion hc)
  | Except.ok _, Except.error _ => Decidable.isFalse (fun hc => Except.noConfusion hc)
  | Except.ok u, Except.ok v =>
    if h : u = v then Decidable.isTrue (by rw [h])
    else Decidable.isFalse (fun hc => h (Except.ok.inj hc))

instance {e a : Type} [DecidableEq e] [DecidableEq a] : DecidableEq (Except e a) :=
  exceptDecEq

/-- A small concrete snapshot store (host, filesystem ↦ snapshots) used to
exercise the tree walk on explicit inputs: the child `c1` exists on both
sides but has no source snapshots, the child `c2` is up to date. -/
def walk_demo_snaps : String → String → List String := fun _ f =>
  if f = "tank" then ["tank@1", "tank@2"]
  else if f = "backup" then ["backup@1"]
  else if f = "tank/c2" then ["tank/c2@1"]
  else if f = "backup/c2" then ["backup/c2@1"]
  else []

/-- Scanning a list from the right for the first element satisfying `p`
finds the last element of the list satisfying `p`: `find?` on the
reversed list equals `getLast?` of the filtered list. -/
theorem find?_reverse_eq_getLast?_filter {α : Type} (p : α → Bool) (l : List α) :
    l.reverse.find? p = (l.filter p).getLast? := by
  induction l using List.reverseRecOn with
  | nil => rfl
  | append_singleton m a ih =>
    rw [List.reverse_append, List.filter_append]
    simp only [List.reverse_cons, List.reverse_nil, List.nil_append, List.find?_cons]
    cases hp : p a
    · simp only [List.singleton_append, List.find?_cons, hp, List.filter_cons,
        Bool.false_eq_true, if_false, List.filter_nil, List.append_nil]
      exact ih
    · simp [hp]

/-- With a non-empty source and an empty destination, a reconciliation
step emits exactly the bootstrap full send of the oldest source snapshot
(its receive side built from the SOURCE host, as in the code) and requests
self-recursion exactly in live mode. -/
theorem reconcile_step_dest_nil (sh dh dfs : String) (S : List String) (dr dp q : Bool)
    (h : S ≠ []) :
    reconcile_step sh dh dfs S [] dr dp q
      = ([Action.send sh (S.headD "") sh dfs],
         if dr then Except.ok false else Except.ok true) := by
  have hS : S.isEmpty = false := by simp [h]
  cases dr <;>
    simp [reconcile_step, hS, extra_snapshots_in_dest, delete_commands]

/-- When no source label occurs among the destination labels, the scan for
a common snapshot finds nothing. -/
theorem last_common_of_disjoint (S D : List String)
    (hshare : ∀ s ∈ S, strip_filesystem_name s ∉ label_set D) :
    last_common_snapshot S D = none := by
  unfold last_common_snapshot
  rw [List.find?_eq_none]
  intro s hs
  simp only [List.mem_reverse] at hs
  intro hcon
  exact hshare s hs (by simpa using hcon)

/-- When no source label occurs among the destination labels, every
destination snapshot is destination-only. -/
theorem extra_of_disjoint (S D : List String)
    (hshare : ∀ s ∈ S, strip_filesystem_name s ∉ label_set D) :
    extra_snapshots_in_dest S D = D := by
  unfold extra_snapshots_in_dest
  rw [List.filter_eq_self]
  intro d hd
  simp only [Bool.not_eq_true']
  by_contra hcon
  simp only [Bool.not_eq_false] at hcon
  have hmem : strip_filesystem_name d ∈ label_set S := by simpa using hcon
  obtain ⟨s, hs, hlab⟩ := List.mem_map.mp hmem
  exact hshare s hs (hlab ▸ List.mem_map_of_mem strip_filesystem_name hd)

/-- With non-empty source and destination sequences sharing no label, a
reconciliation step emits the delete commands computed over the whole
destination sequence and then fails with the no-common-snapshot error. -/
theorem reconcile_step_no_common (sh dh dfs : String) (S D : List String) (dr dp q : Bool)
    (hS : S ≠ []) (hD : D ≠ [])
    (hshare : ∀ s ∈ S, strip_filesystem_name s ∉ label_set D) :
    reconcile_step sh dh dfs S D dr dp q
      = (delete_commands dh D dp q, Except.error ZfsError.noSnapshotsInCommon) := by
  have h1 : S.isEmpty = false := by simp [hS]
  have h2 : D.isEmpty = false := by simp [hD]
  simp [reconcile_step, h1, h2, last_common_of_disjoint S D hshare,
    extra_of_disjoint S D hshare]

/-- A reconciliation step requests self-recursion only in the bootstrap
branch, i.e. only when the destination enumeration is empty. -/
theorem reconcile_step_ok_true (sh dh dfs : String) (S D : List String) (dr dp q : Bool)
    (h : (reconcile_step sh dh dfs S D dr dp q).2 = Except.ok true) : D = [] := by
  by_contra hD
  have h2 : D.isEmpty = false := by simp [hD]
  by_cases h1 : S.isEmpty
  · simp [reconcile_step, h1] at h
  · simp only [reconcile_step, h1, h2, Bool.false_eq_true, if_false] at h
    rcases hlc : last_common_snapshot S D with _ | lc
    · rw [hlc] at h
      simp at h
    · rw [hlc] at h
      simp at h
      split at h <;> simp at h


/-- A destroy action emitted by the delete loop targets a snapshot of the
extra list with an automatic label, and is emitted only with the delete
policy on and quiet off. -/
theorem mem_delete_commands {dh : String} {extra : List String} {dp q : Bool}
    {h s : String}
    (hm : Action.destroy h s ∈ delete_commands dh extra dp q) :
    h = dh ∧ s ∈ extra ∧ startswith (strip_filesystem_name s) "zfs-auto-snap" = true
      ∧ dp = true ∧ q = false := by
  unfold delete_commands at hm
  rw [List.mem_filterMap] at hm
  obtain ⟨a, ha, hma⟩ := hm
  split_ifs at hma with hc1 hc2 hc3
  · rw [Option.some_inj] at hma
    obtain ⟨hh, hsa⟩ := Action.destroy.inj hma
    subst hh
    subst hsa
    exact ⟨rfl, ha, hc1, hc2, by simpa using hc3⟩

/-- Every destroy action emitted by a reconciliation step comes from the
delete loop over the destination-only snapshots. -/
theorem destroy_mem_reconcile {sh dh dfs : String} {S D : List String} {dr dp q : Bool}
    {h s : String}
    (hm : Action.destroy h s ∈ (reconcile_step sh dh dfs S D dr dp q).1) :
    Action.destroy h s ∈ delete_commands dh (extra_snapshots_in_dest S D) dp q := by
  unfold reconcile_step at hm
  split_ifs at hm with hc1 hc2 hc3
  · simp at hm
  · rw [List.mem_append] at hm
    rcases hm with hm | hm
    · exact hm
    · simp at hm
  · rw [List.mem_append] at hm
    rcases hm with hm | hm
    · exact hm
    · simp at hm
  · rcases hlc : last_common_snapshot S D with _ | lc
    · rw [hlc] at hm
      simpa using hm
    · rw [hlc] at hm
      simp only at hm
      split at hm
      · exact hm
      · rw [List.mem_append] at hm
        rcases hm with hm | hm
        · exact hm
        · simp at hm


/-- If every enumeration sees a non-empty source and an empty destination,
a live run re-enters the bootstrap branch forever: no amount of fuel makes
`replicate_snapshots` return. -/
theorem replicate_none_of_always_bootstrap (srcEnum destEnum : Nat → List String)
    (sh dh dfs : String) (dp q : Bool)
    (h : ∀ k, srcEnum k ≠ [] ∧ destEnum k = []) :
    ∀ fuel k, replicate_snapshots srcEnum destEnum sh dh dfs false dp q k fuel = none := by
  intro fuel
  induction fuel with
  | zero => intro k; rfl
  | succ f ih =>
    intro k
    have hstep : reconcile_step sh dh dfs (srcEnum k) (destEnum k) false dp q
        = ([Action.send sh ((srcEnum k).headD "") sh dfs], Except.ok true) := by
      rw [(h k).2]
      simpa using reconcile_step_dest_nil sh dh dfs (srcEnum k) false dp q (h k).1
    simp only [replicate_snapshots, hstep, ih (k + 1)]

/-- The walk over source-side children, when no replicated child runs out
of fuel, produces exactly one entry per source child, in order, and records
a caught replication error in the entry of the child that raised it. -/
theorem child_walk_covers (snaps : String → String → List String)
    (sh sfs dh dfs : String) (dr dp q : Bool) (fuel : Nat) (dsubs : List String) :
    ∀ subs : List String,
      (∀ d ∈ subs, dsubs.contains d = true →
        (child_replicate snaps sh sfs dh dfs dr dp q fuel d).isSome = true) →
      ∃ entries,
        child_walk snaps sh sfs dh dfs dr dp q fuel dsubs subs = some entries
          ∧ entries.map Prod.fst = subs
          ∧ ∀ d a e, d ∈ subs → dsubs.contains d = true →
              child_replicate snaps sh sfs dh dfs dr dp q fuel d
                = some (a, Except.error e) →
              (d, ChildOutcome.reportedError a e) ∈ entries := by
  intro subs
  induction subs with
  | nil =>
    intro _
    exact ⟨[], rfl, rfl, by simp⟩
  | cons c rest ih =>
    intro hall
    obtain ⟨t, ht, hmap, herr⟩ := ih (fun d hd hdc => hall d (List.mem_cons_of_mem c hd) hdc)
    by_cases hc : dsubs.contains c = true
    · have hcm : c ∈ dsubs := by simpa using hc
      have hs := hall c (List.mem_cons_self c rest) hc
      rcases hsome : child_replicate snaps sh sfs dh dfs dr dp q fuel c with _ | ⟨a, out⟩
      · rw [hsome] at hs
        simp at hs
      · rcases out with e | u
        · refine ⟨(c, ChildOutcome.reportedError a e) :: t, ?_, ?_, ?_⟩
          · simp [child_walk, hcm, hsome, ht]
          · simp [hmap]
          · intro d a2 e2 hd hdc hrep
            rcases List.mem_cons.mp hd with rfl | hd2
            · have heq := hsome.symm.trans hrep
              rw [Option.some_inj] at heq
              injection heq with ha hee
              injection hee with he
              rw [ha, he]
              exact List.mem_cons_self _ _
            · exact List.mem_cons_of_mem _ (herr d a2 e2 hd2 hdc hrep)
        · refine ⟨(c, ChildOutcome.replicated a) :: t, ?_, ?_, ?_⟩
          · simp [child_walk, hcm, hsome, ht]
          · simp [hmap]
          · intro d a2 e2 hd hdc hrep
            rcases List.mem_cons.mp hd with rfl | hd2
            · rw [hrep] at hsome
              simp at hsome
            · exact List.mem_cons_of_mem _ (herr d a2 e2 hd2 hdc hrep)
    · have hcm : c ∉ dsubs := by simpa using hc
      refine ⟨(c, ChildOutcome.missingOnDest) :: t, ?_, ?_, ?_⟩
      · simp [child_walk, hcm, ht]
      · simp [hmap]
      · intro d a2 e2 hd hdc hrep
        rcases List.mem_cons.mp hd with rfl | hd2
        · exact absurd hdc hc
        · exact List.mem_cons_of_mem _ (herr d a2 e2 hd2 hdc hrep)

/-- One unfolding step of `replicate_snapshots`. -/
theorem replicate_snapshots_succ (srcEnum destEnum : Nat → List String)
    (sh dh dfs : String) (dr dp q : Bool) (k m : Nat) :
    replicate_snapshots srcEnum destEnum sh dh dfs dr dp q k (m + 1)
      = (match (reconcile_step sh dh dfs (srcEnum k) (destEnum k) dr dp q).2 with
        | Except.error e =>
          some ((reconcile_step sh dh dfs (srcEnum k) (destEnum k) dr dp q).1,
            Except.error e)
        | Except.ok false =>
          some ((reconcile_step sh dh dfs (srcEnum k) (destEnum k) dr dp q).1,
            Except.ok ())
        | Except.ok true =>
          match replicate_snapshots srcEnum destEnum sh dh dfs dr dp q (k + 1) m with
          | none => none
          | some (acts, out) =>
            some ((reconcile_step sh dh dfs (srcEnum k) (destEnum k) dr dp q).1 ++ acts,
              out)) := rfl

/-- C1: for source and destination sequences that share at least one
label, the `last_common` snapshot computed by the reconciliation scan is
the most recent source snapshot, by creation order, whose label occurs
among the labels of the destination: it equals the last element, in
creation order, of the qualifying source snapshots (so with duplicate
shared labels the most recent qualifying one is chosen), and it exists. -/
theorem last_common_is_most_recent_shared (S D : List String)
    (h : ∃ s ∈ S, strip_filesystem_name s ∈ label_set D) :
    last_common_snapshot S D
        = (S.filter (fun s => (label_set D).contains (strip_filesystem_name s))).getLast?
      ∧ last_common_snapshot S D ≠ none := by
  have he : last_common_snapshot S D
      = (S.filter (fun s => (label_set D).contains (strip_filesystem_name s))).getLast? :=
    find?_reverse_eq_getLast?_filter _ S
  refine ⟨he, ?_⟩
  intro hn
  rw [last_common_snapshot, List.find?_eq_none] at hn
  obtain ⟨s, hs, hlab⟩ := h
  exact hn s (List.mem_reverse.mpr hs) (by simpa using hlab)

/-- C1 witness at a concrete shared-label input. -/
theorem last_common_is_most_recent_shared_witness :
    last_common_snapshot ["tank@1", "tank@2", "tank@3"] ["backup@2"]
        = ((["tank@1", "tank@2", "tank@3"] : List String).filter
            (fun s => (label_set ["backup@2"]).contains (strip_filesystem_name s))).getLast?
      ∧ last_common_snapshot ["tank@1", "tank@2", "tank@3"] ["backup@2"] ≠ none :=
  last_common_is_most_recent_shared ["tank@1", "tank@2", "tank@3"] ["backup@2"] (by decide)

/-- C2 counterexample: with source `[fsA@2]` and destination
`[fsA@1, fsA@zfs-auto-snap-9]` sharing no label, the delete policy enabled
and default verbosity, the call fails with the no-common-snapshot error
but a delete action for the automatic destination-only snapshot IS
emitted — refuting the claim that no delete action is emitted or
executed. -/
theorem no_common_delete_claim_counterexample :
    (reconcile_step "srch" "dsth" "tank/replica" ["fsA@2"]
        ["fsA@1", "fsA@zfs-auto-snap-9"] true true false)
      = ([Action.destroy "dsth" "fsA@zfs-auto-snap-9"],
         Except.error ZfsError.noSnapshotsInCommon)
      ∧ (reconcile_step "srch" "dsth" "tank/replica" ["fsA@2"]
          ["fsA@1", "fsA@zfs-auto-snap-9"] true true false).1 ≠ [] := by decide

/-- C2 (amended): for non-empty source and destination sequences sharing
no label, with the delete policy enabled and quiet off, reconciliation
fails with the no-common-snapshot error, but the delete actions for the
destination-only automatic snapshots are emitted before the failure: in
the code the delete loop runs before the no-common-snapshot check. -/
theorem no_common_fails_after_deletes (sh dh dfs : String) (S D : List String) (dr : Bool)
    (hS : S ≠ []) (hD : D ≠ [])
    (hshare : ∀ s ∈ S, strip_filesystem_name s ∉ label_set D) :
    (reconcile_step sh dh dfs S D dr true false).2
        = Except.error ZfsError.noSnapshotsInCommon
      ∧ ∀ d ∈ D, startswith (strip_filesystem_name d) "zfs-auto-snap" = true →
          Action.destroy dh d ∈ (reconcile_step sh dh dfs S D dr true false).1 := by
  rw [reconcile_step_no_common sh dh dfs S D dr true false hS hD hshare]
  refine ⟨rfl, ?_⟩
  intro d hd hauto
  unfold delete_commands
  rw [List.mem_filterMap]
  exact ⟨d, hd, by simp [hauto]⟩

/-- C2 witness: the amended behaviour at a concrete live-mode input. -/
theorem no_common_fails_after_deletes_witness :
    (reconcile_step "srch" "dsth" "tank/replica" ["fsA@2"]
        ["fsA@1", "fsA@zfs-auto-snap-9"] false true false).2
        = Except.error ZfsError.noSnapshotsInCommon
      ∧ Action.destroy "dsth" "fsA@zfs-auto-snap-9"
          ∈ (reconcile_step "srch" "dsth" "tank/replica" ["fsA@2"]
              ["fsA@1", "fsA@zfs-auto-snap-9"] false true false).1 :=
  ⟨(no_common_fails_after_deletes "srch" "dsth" "tank/replica" ["fsA@2"]
      ["fsA@1", "fsA@zfs-auto-snap-9"] false (by decide) (by decide) (by decide)).1,
   (no_common_fails_after_deletes "srch" "dsth" "tank/replica" ["fsA@2"]
      ["fsA@1", "fsA@zfs-auto-snap-9"] false (by decide) (by decide) (by decide)).2
     "fsA@zfs-auto-snap-9" (by decide) (by decide)⟩

/-- C3 (code slip, evaluated): in the bootstrap case the emitted
full-transfer command builds its receive side with `maybe_ssh` of the
SOURCE host (source line 222), not of the destination host: with source
host `sydney` and destination host `localhost` the rendered command pipes
into `ssh -C sydney ... zfs receive`, so the transfer is not delivered at
the destination location — contradicting the claim, while the incremental
path (source line 250) does use the destination host. -/
theorem bootstrap_receive_targets_source_host :
    (reconcile_step "sydney" "localhost" "tank/replica" ["tank/a@1"] [] true false false)
        = ([Action.send "sydney" "tank/a@1" "sydney" "tank/replica"], Except.ok false)
      ∧ (Action.send "sydney" "tank/a@1" "sydney" "tank/replica").command
          = "ssh -C sydney sudo zfs send tank/a@1 | ssh -C sydney sudo zfs receive -F tank/replica"
      ∧ "sydney" ≠ "localhost" := by decide

/-- C4 (code slip, evaluated): with the delete policy enabled, a
destination-only automatic snapshot produces a delete action only when
quiet is off; the same input in quiet mode yields no delete action,
because in the source the `maybe_run_command` for the destroy is nested
inside the `if not quiet:` block — contradicting the claim (and the usage
text of the script) that the decision depends only on the label and the
policy flag. -/
theorem quiet_suppresses_auto_snapshot_delete :
    (reconcile_step "localhost" "localhost" "backup" ["tank@1"]
        ["backup@1", "backup@zfs-auto-snap-2"] true true true).1 = []
      ∧ (reconcile_step "localhost" "localhost" "backup" ["tank@1"]
          ["backup@1", "backup@zfs-auto-snap-2"] true true false).1
          = [Action.destroy "localhost" "backup@zfs-auto-snap-2"] := by decide

/-- C5: every delete action emitted by a reconciliation step targets a
destination snapshot whose label is absent from the source label set and
carries the automatic `zfs-auto-snap` label; manual destination-only
snapshots are never deleted, for every input and flag combination. -/
theorem delete_targets_only_dest_only_auto
    (sh dh dfs : String) (S D : List String) (dr dp q : Bool) (h s : String)
    (hm : Action.destroy h s ∈ (reconcile_step sh dh dfs S D dr dp q).1) :
    s ∈ D ∧ strip_filesystem_name s ∉ label_set S
      ∧ startswith (strip_filesystem_name s) "zfs-auto-snap" = true := by
  obtain ⟨-, hmem, hauto, -, -⟩ := mem_delete_commands (destroy_mem_reconcile hm)
  unfold extra_snapshots_in_dest at hmem
  rw [List.mem_filter] at hmem
  obtain ⟨hD, hlab⟩ := hmem
  refine ⟨hD, ?_, hauto⟩
  simpa using hlab

/-- C5 witness: a concrete emitted delete action satisfies the safety
conditions. -/
theorem delete_targets_only_dest_only_auto_witness :
    "backup@zfs-auto-snap-2" ∈ (["backup@1", "backup@zfs-auto-snap-2"] : List String)
      ∧ strip_filesystem_name "backup@zfs-auto-snap-2" ∉ label_set ["tank@1"]
      ∧ startswith (strip_filesystem_name "backup@zfs-auto-snap-2") "zfs-auto-snap" = true :=
  delete_targets_only_dest_only_auto "localhost" "localhost" "backup" ["tank@1"]
    ["backup@1", "backup@zfs-auto-snap-2"] true true false "localhost"
    "backup@zfs-auto-snap-2" (by decide)

/-- C6: with a non-empty source and an empty destination, the only
transfer action emitted is the full transfer of the oldest source
snapshot; in particular no incremental action is emitted. -/
theorem empty_dest_full_transfer_of_oldest (sh dh dfs : String) (S : List String)
    (dr dp q : Bool) (h : S ≠ []) :
    (reconcile_step sh dh dfs S [] dr dp q).1 = [Action.send sh (S.headD "") sh dfs] := by
  rw [reconcile_step_dest_nil sh dh dfs S dr dp q h]

/-- C6 witness at a concrete two-snapshot source. -/
theorem empty_dest_full_transfer_of_oldest_witness :
    (reconcile_step "a" "b" "c" ["x@1", "x@2"] [] true false false).1
      = [Action.send "a" "x@1" "a" "c"] :=
  empty_dest_full_transfer_of_oldest "a" "b" "c" ["x@1", "x@2"] true false false (by decide)

/-- C7: with an empty source sequence, reconciliation fails with the
no-source-snapshots error (`ZfsReplicationNoRemoteSnapshots`, the
`NoSourceSnapshots` of the design document) and emits no transfer or
delete action, for every destination sequence and flag combination. -/
theorem empty_source_fails_no_actions (sh dh dfs : String) (D : List String)
    (dr dp q : Bool) :
    reconcile_step sh dh dfs [] D dr dp q = ([], Except.error ZfsError.noRemoteSnapshots) :=
  rfl

/-- C8: with non-empty source and destination sequences sharing no
label, reconciliation fails with the no-common-snapshot error. -/
theorem disjoint_labels_fail_no_common (sh dh dfs : String) (S D : List String)
    (dr dp q : Bool) (hS : S ≠ []) (hD : D ≠ [])
    (hshare : ∀ s ∈ S, strip_filesystem_name s ∉ label_set D) :
    (reconcile_step sh dh dfs S D dr dp q).2 = Except.error ZfsError.noSnapshotsInCommon := by
  rw [reconcile_step_no_common sh dh dfs S D dr dp q hS hD hshare]

/-- C8 witness at concrete disjoint sequences. -/
theorem disjoint_labels_fail_no_common_witness :
    (reconcile_step "sh" "dh" "dfs" ["a@1"] ["b@2"] true false false).2
      = Except.error ZfsError.noSnapshotsInCommon :=
  disjoint_labels_fail_no_common "sh" "dh" "dfs" ["a@1"] ["b@2"] true false false
    (by decide) (by decide) (by decide)

/-- C9: in live mode with an empty destination enumeration the bootstrap
branch re-invokes `replicate_snapshots` (one unit of fuel does not
suffice); the recursion terminates within two invocations whenever the
destination enumeration of the recursive call is non-empty (the
precondition established by a successful bootstrap transfer); and if every
enumeration keeps the destination empty while the source stays non-empty,
the self-recursion re-enters the bootstrap branch unboundedly (no amount
of fuel suffices). -/
theorem bootstrap_recursion_conditional_termination
    (srcEnum destEnum : Nat → List String) (sh dh dfs : String) (dp q : Bool) :
    (srcEnum 0 ≠ [] → destEnum 0 = [] →
        replicate_snapshots srcEnum destEnum sh dh dfs false dp q 0 1 = none)
      ∧ (destEnum 1 ≠ [] → ∀ fuel, 2 ≤ fuel →
          (replicate_snapshots srcEnum destEnum sh dh dfs false dp q 0 fuel).isSome = true)
      ∧ ((∀ k, srcEnum k ≠ [] ∧ destEnum k = []) →
          ∀ fuel, replicate_snapshots srcEnum destEnum sh dh dfs false dp q 0 fuel = none) := by
  refine ⟨?_, ?_, ?_⟩
  · intro h0 hd0
    have hstep : reconcile_step sh dh dfs (srcEnum 0) (destEnum 0) false dp q
        = ([Action.send sh ((srcEnum 0).headD "") sh dfs], Except.ok true) := by
      rw [hd0]
      simpa using reconcile_step_dest_nil sh dh dfs (srcEnum 0) false dp q h0
    simp only [replicate_snapshots, hstep]
  · intro hd1 fuel hfuel
    obtain ⟨f, rfl⟩ : ∃ f, fuel = f + 1 + 1 := ⟨fuel - 2, by omega⟩
    have hinner : ∀ g : Nat,
        (replicate_snapshots srcEnum destEnum sh dh dfs false dp q 1 (g + 1)).isSome
          = true := by
      intro g
      rcases h1 : reconcile_step sh dh dfs (srcEnum 1) (destEnum 1) false dp q
        with ⟨acts1, out1⟩
      rcases out1 with e | b
      · simp [replicate_snapshots, h1]
      · rcases b with _ | _
        · simp [replicate_snapshots, h1]
        · exact absurd (reconcile_step_ok_true sh dh dfs (srcEnum 1) (destEnum 1)
            false dp q (by rw [h1])) hd1
    rcases h0 : reconcile_step sh dh dfs (srcEnum 0) (destEnum 0) false dp q
      with ⟨acts0, out0⟩
    rcases out0 with e | b
    · simp [replicate_snapshots, h0]
    · rcases b with _ | _
      · simp [replicate_snapshots, h0]
      · have h2 := hinner f
        rcases hv : replicate_snapshots srcEnum destEnum sh dh dfs false dp q 1 (f + 1)
          with _ | ⟨acts2, out2⟩
        · rw [hv] at h2
          simp at h2
        · rw [replicate_snapshots_succ srcEnum destEnum sh dh dfs false dp q 0 (f + 1), h0]
          simp [hv]
  · intro h fuel
    exact replicate_none_of_always_bootstrap srcEnum destEnum sh dh dfs dp q h fuel 0

/-- C9 witness: concrete runs for the three parts (self-recursion at fuel
one, termination at fuel two with a non-empty second enumeration, and
divergence for an always-empty destination). -/
theorem bootstrap_recursion_conditional_termination_witness :
    replicate_snapshots (fun _ => ["tank@1"]) (fun _ => ([] : List String))
        "localhost" "localhost" "backup" false false false 0 1 = none
      ∧ (replicate_snapshots (fun _ => ["tank@1"])
          (fun k => if k = 0 then [] else ["backup@1"])
          "localhost" "localhost" "backup" false false false 0 2).isSome = true
      ∧ replicate_snapshots (fun _ => ["tank@1"]) (fun _ => ([] : List String))
          "localhost" "localhost" "backup" false false false 0 5 = none :=
  ⟨(bootstrap_recursion_conditional_termination (fun _ => ["tank@1"])
      (fun _ => ([] : List String)) "localhost" "localhost" "backup" false false).1
      (by decide) rfl,
   (bootstrap_recursion_conditional_termination (fun _ => ["tank@1"])
      (fun k => if k = 0 then [] else ["backup@1"]) "localhost" "localhost" "backup"
      false false).2.1 (by decide) 2 (by decide),
   (bootstrap_recursion_conditional_termination (fun _ => ["tank@1"])
      (fun _ => ([] : List String)) "localhost" "localhost" "backup" false false).2.2
      (fun k => ⟨by decide, rfl⟩) 5⟩

/-- C10: during the walk over source-side children, a child that exists
on both sides and whose replication fails with one of the two replication
errors has that failure caught and recorded in the entry of that child
only; the walk still produces an entry for every source child, in order,
and the overall walker returns successfully (given that the root pair
replicated). -/
theorem tree_walk_reports_child_error_and_continues
    (snaps : String → String → List String) (sh sfs dh dfs : String)
    (dr dp q : Bool) (fuel : Nat) (src_subs dest_subs : List String)
    (c : String) (acts root_actions : List Action) (e : ZfsError)
    (hroot : replicate_snapshots (fun _ => snaps sh sfs) (fun _ => snaps dh dfs)
        sh dh dfs dr dp q 0 fuel = some (root_actions, Except.ok ()))
    (hall : ∀ d ∈ src_subs, dest_subs.contains d = true →
        (child_replicate snaps sh sfs dh dfs dr dp q fuel d).isSome = true)
    (hc : c ∈ src_subs) (hcd : dest_subs.contains c = true)
    (herr : child_replicate snaps sh sfs dh dfs dr dp q fuel c
        = some (acts, Except.error e)) :
    replicate_snapshots_recursively snaps sh sfs dh dfs dr dp q src_subs dest_subs fuel
        = some (Except.ok (root_actions,
            (child_walk snaps sh sfs dh dfs dr dp q fuel dest_subs src_subs).getD []))
      ∧ ((child_walk snaps sh sfs dh dfs dr dp q fuel dest_subs src_subs).getD []).map
          Prod.fst = src_subs
      ∧ (c, ChildOutcome.reportedError acts e)
          ∈ (child_walk snaps sh sfs dh dfs dr dp q fuel dest_subs src_subs).getD [] := by
  obtain ⟨entries, hw, hmap, hmem⟩ :=
    child_walk_covers snaps sh sfs dh dfs dr dp q fuel dest_subs src_subs hall
  rw [hw]
  simp only [Option.getD_some]
  refine ⟨?_, hmap, hmem c acts e hc hcd herr⟩
  simp [replicate_snapshots_recursively, hroot, hw]

/-- C10 witness: on the concrete store, the child `c1` fails with the
no-source-snapshots error, is reported in its own entry, and the walk
still covers both children. -/
theorem tree_walk_reports_child_error_and_continues_witness :
    replicate_snapshots_recursively walk_demo_snaps "localhost" "tank" "localhost" "backup"
        true false false ["c1", "c2"] ["c1", "c2"] 1
        = some (Except.ok
            ([Action.sendIncremental "localhost" "tank@1" "tank@2" "localhost" "backup"],
             (child_walk walk_demo_snaps "localhost" "tank" "localhost" "backup"
               true false false 1 ["c1", "c2"] ["c1", "c2"]).getD []))
      ∧ ((child_walk walk_demo_snaps "localhost" "tank" "localhost" "backup"
          true false false 1 ["c1", "c2"] ["c1", "c2"]).getD []).map Prod.fst
          = ["c1", "c2"]
      ∧ ("c1", ChildOutcome.reportedError [] ZfsError.noRemoteSnapshots)
          ∈ (child_walk walk_demo_snaps "localhost" "tank" "localhost" "backup"
              true false false 1 ["c1", "c2"] ["c1", "c2"]).getD [] :=
  tree_walk_reports_child_error_and_continues walk_demo_snaps "localhost" "tank"
    "localhost" "backup" true false false 1 ["c1", "c2"] ["c1", "c2"] "c1" []
    [Action.sendIncremental "localhost" "tank@1" "tank@2" "localhost" "backup"]
    ZfsError.noRemoteSnapshots (by decide) (by decide) (by decide) (by decide) (by decide)


end ZfsReplicate
